import Mathlib

/-!
Verification development for the `GrassClient` WebSocket client
(`src/client.js`): a single long-lived, authenticated, proxied WebSocket
connection with an unbounded reconnect supervisor, an authentication
handshake, and a periodic heartbeat with staleness detection.

The JavaScript source is shallowly embedded: the client's mutable fields
become a `ClientState` record, observable effects (logging, socket
terminate/close, sends, sleeps) become an explicit `Act` trace, and the
asynchronous environment (event arrival, write-callback behaviour, the
platform URL parser, clocks and fresh UUIDs) is passed in as explicit
parameters, so every function is a total, computable state transformer.
-/

/-! ## Constants of the source

`this.reconnectDelay = 10000`, `this.connectionTimeout = 30000` are set in
the constructor and never reassigned; the send timeout (10000 ms), the
heartbeat interval (30000 ms) and the staleness threshold (45000 ms) are
literals in the source. -/

def reconnectDelayMs : Nat := 10000

def connectionTimeoutMs : Nat := 30000

def sendTimeoutMs : Nat := 10000

def heartbeatIntervalMs : Nat := 30000

/-! ## WebSocket ready states (the `ws` library constants) -/

namespace WebSocket

def CONNECTING : Nat := 0

def OPEN : Nat := 1

def CLOSING : Nat := 2

def CLOSED : Nat := 3

end WebSocket

/-- The transport handle: all the embedding observes of a `ws` WebSocket
object is its `readyState`. -/
structure WS where
  readyState : Nat
deriving DecidableEq, Repr

/-- The mutable instance fields of a `GrassClient`, as set up by the
constructor and mutated by its methods.  Times are in milliseconds
(`Date.now()`). -/
structure ClientState where
  userId : String
  proxy : Option String
  ws : Option WS
  browserId : String
  heartbeatInterval : Option Nat
  lastHeartbeat : Nat
deriving DecidableEq, Repr

/-- The `GrassClient` constructor: `ws = null`, `browserId = uuidv4()`,
`heartbeatInterval = null`, `lastHeartbeat = Date.now()`.  The fresh UUID
and the construction-time clock reading are injected as parameters. -/
def GrassClient.init (userId : String) (proxy : Option String)
    (browserId : String) (now : Nat) : ClientState :=
  { userId := userId, proxy := proxy, ws := none, browserId := browserId,
    heartbeatInterval := none, lastHeartbeat := now }

/-! ## JSON values and wire payloads -/

/-- JSON values, as far as this client's wire messages need them. -/
inductive Json where
  | str : String → Json
  | num : Nat → Json
  | obj : List (String × Json) → Json
deriving Repr

/-- Field lookup on a JSON object (property access `response.id`,
`payload.result.user_id`, ...). -/
def Json.getField : Json → String → Option Json
  | .obj fields, k => fields.lookup k
  | _, _ => none

/-- The browser-identifying User-Agent string used in the upgrade headers
and in the auth payload. -/
def userAgentString : String :=
  "Mozilla/5.0 (Windows NT 10.0; Win64; x64) AppleWebKit/537.36 (KHTML, like Gecko) Chrome/114.0.0.0 Safari/537.36"

/-- The heartbeat ping frame: `{ id: uuidv4(), action: 'PING', data: {} }`. -/
def pingPayload (freshId : String) : Json :=
  .obj [("id", .str freshId), ("action", .str ("PING")), ("data", .obj [])]

/-- The heartbeat pong-acknowledgment frame:
`{ id: 'F3X', origin_action: 'PONG' }`. -/
def pongAckPayload : Json :=
  .obj [("id", .str ("F3X")), ("origin_action", .str ("PONG"))]

/-- The auth payload built by `sendAuthPayload(authId)`.  `authId` is
`response.id` from the parsed challenge: when the field was absent the JS
value is `undefined` and `JSON.stringify` drops the `id` key, which the
`Option` models.  `nowMs` is the `Date.now()` reading at build time;
`timestamp` is `Math.floor(Date.now() / 1000)`. -/
def buildAuthPayload (s : ClientState) (authId : Option Json) (nowMs : Nat) : Json :=
  .obj ((match authId with
         | some v => [("id", v)]
         | none => []) ++
        [("origin_action", .str ("AUTH")),
         ("result", .obj
           [("browser_id", .str s.browserId),
            ("user_id", .str s.userId),
            ("user_agent", .str userAgentString),
            ("timestamp", .num (nowMs / 1000)),
            ("device_type", .str ("desktop")),
            ("version", .str ("4.28.1"))])])

/-- The `message` handler of `authenticate()`: the inbound frame has been
parsed by `JSON.parse` into `msg`; the handler reads `response.id` and
builds the outbound auth payload from it. -/
def authenticateOutbound (s : ClientState) (msg : Json) (nowMs : Nat) : Json :=
  buildAuthPayload s (msg.getField ("id")) nowMs

/-! ## Observable actions -/

/-- Observable effects of the client, in program order: leveled log lines,
`ws.terminate()`, `ws.close()`, `ws.removeAllListeners()`,
`clearInterval`, a completed `ws.send` of a JSON payload, and
`setTimeout`-based sleeps. -/
inductive Act where
  | logInfo (msg : String)
  | logWarn (msg : String)
  | logError (msg : String)
  | terminate
  | close
  | removeAllListeners
  | clearIntervalA
  | send (payload : Json)
  | sleep (ms : Nat)
deriving Repr

/-! ## sendMessage -/

/-- How the transport's write callback behaves for one `ws.send` call:
either the callback fires within the `sendTimeoutMs` window (with `none`
for success or `some e` for a transport error), or it does not fire within
the window at all. -/
inductive WriteBehavior where
  | completes (err : Option String)
  | hangs
deriving DecidableEq, Repr

/-- How one `sendMessage` promise settles. -/
inductive SendResult where
  | ok
  | errNotConnected
  | errTimeout
  | errWrite (e : String)
deriving DecidableEq, Repr

/-- The `error.message` of the rejection value. -/
def SendResult.message : SendResult → String
  | .ok => ""
  | .errNotConnected => "WebSocket not connected"
  | .errTimeout => "Send message timeout"
  | .errWrite e => e

/-- Outcome of a `sendMessage` call, plus whether the 10-second
`setTimeout` guard was ever armed before the promise settled. -/
structure SendOutcome where
  result : SendResult
  timeoutArmed : Bool
deriving DecidableEq, Repr

/-- `sendMessage(payload)`: rejects immediately with
`'WebSocket not connected'` when `!this.ws || this.ws.readyState !==
WebSocket.OPEN` (the guard runs before the `setTimeout` is armed);
otherwise arms the 10 s timer and calls `ws.send`, resolving or rejecting
with the callback's outcome, or rejecting with `'Send message timeout'`
when the callback does not fire within the window. -/
def sendMessage (ws : Option WS) (wb : WriteBehavior) : SendOutcome :=
  match ws with
  | none => { result := .errNotConnected, timeoutArmed := false }
  | some w =>
    if w.readyState ≠ WebSocket.OPEN then
      { result := .errNotConnected, timeoutArmed := false }
    else
      match wb with
      | .hangs => { result := .errTimeout, timeoutArmed := true }
      | .completes none => { result := .ok, timeoutArmed := true }
      | .completes (some e) => { result := .errWrite e, timeoutArmed := true }

/-! ## Heartbeat -/

/-- Environment of one heartbeat tick: the `Date.now()` reading at the top
of the tick, the fresh `uuidv4()` for the ping frame, and the write
behaviour of the two `ws.send` calls. -/
structure TickEnv where
  now : Nat
  freshId : String
  send1 : WriteBehavior
  send2 : WriteBehavior
deriving DecidableEq, Repr

/-- Result of one heartbeat tick: the client state afterwards and the
trace of observable actions in program order. -/
structure TickResult where
  state : ClientState
  actions : List Act
deriving Repr

/-- One tick of the `setInterval` callback armed by `startHeartbeat()`:
does nothing unless `this.ws?.readyState === WebSocket.OPEN`; then, if
`now - this.lastHeartbeat > 45000`, warns and terminates without sending
or updating the timestamp; otherwise sends the ping frame then the
pong-ack frame and, when both sends resolve, sets `lastHeartbeat = now`
(the reading from the top of the tick).  A rejected send is caught: the
error is logged and the transport terminated, with no timestamp update.
The staleness test is on signed clock arithmetic, hence the `Int` cast. -/
def heartbeatTick (s : ClientState) (env : TickEnv) : TickResult :=
  match s.ws with
  | none => { state := s, actions := [] }
  | some w =>
    if w.readyState = WebSocket.OPEN then
      if (env.now : Int) - (s.lastHeartbeat : Int) > 45000 then
        { state := s,
          actions := [.logWarn ("Heartbeat timeout, reconnecting..."), .terminate] }
      else
        match (sendMessage s.ws env.send1).result with
        | .ok =>
          match (sendMessage s.ws env.send2).result with
          | .ok =>
            { state := { s with lastHeartbeat := env.now },
              actions := [.send (pingPayload env.freshId), .send pongAckPayload] }
          | r =>
            { state := s,
              actions := [.send (pingPayload env.freshId), .send pongAckPayload,
                          .logError ("Heartbeat failed: " ++ r.message), .terminate] }
        | r =>
          { state := s,
            actions := [.send (pingPayload env.freshId),
                        .logError ("Heartbeat failed: " ++ r.message), .terminate] }
    else
      { state := s, actions := [] }

/-- `startHeartbeat()` itself: clears any prior interval timer, then arms
a new one (`newTimer` is the handle returned by `setInterval`). -/
def startHeartbeat (s : ClientState) (newTimer : Nat) : ClientState × List Act :=
  match s.heartbeatInterval with
  | some _ => ({ s with heartbeatInterval := some newTimer }, [.clearIntervalA])
  | none => ({ s with heartbeatInterval := some newTimer }, [])

/-! ## cleanup -/

/-- `cleanup()`: clears the interval timer if present; if a transport
handle exists, removes all listeners, closes gracefully only when the
socket is currently `OPEN`, and nulls the handle. -/
def cleanup (s : ClientState) : ClientState × List Act :=
  let timerActs : List Act :=
    match s.heartbeatInterval with
    | some _ => [.clearIntervalA]
    | none => []
  let s1 : ClientState := { s with heartbeatInterval := none }
  match s1.ws with
  | none => (s1, timerActs)
  | some w =>
    ({ s1 with ws := none },
     timerActs ++
       (Act.removeAllListeners ::
         (if w.readyState = WebSocket.OPEN then [Act.close] else [])))

/-! ## connect: proxy agent construction -/

/-- A hexadecimal digit's value, if any. -/
def hexDigit (c : Char) : Option Nat :=
  if '0' ≤ c ∧ c ≤ '9' then some (c.toNat - '0'.toNat)
  else if 'a' ≤ c ∧ c ≤ 'f' then some (c.toNat - 'a'.toNat + 10)
  else if 'A' ≤ c ∧ c ≤ 'F' then some (c.toNat - 'A'.toNat + 10)
  else none

/-- `decodeURIComponent` on its well-formed fragment: every `%XY` with two
hex digits becomes the byte `0xXY`; a malformed escape is passed through
literally (where the platform function would throw `URIError`). -/
def percentDecodeList : List Char → List Char
  | [] => []
  | '%' :: a :: b :: rest =>
    match hexDigit a, hexDigit b with
    | some ha, some hb => Char.ofNat (16 * ha + hb) :: percentDecodeList rest
    | _, _ => '%' :: a :: percentDecodeList (b :: rest)
  | c :: rest => c :: percentDecodeList rest

/-- String form of `percentDecodeList`. -/
def percentDecode (s : String) : String :=
  String.mk (percentDecodeList s.data)

/-- Result of the platform `new URL(...)` parser: the components the code
reads.  `username`/`password` are `""` when absent, as in the WHATWG URL
class. -/
structure ParsedUrl where
  protocol : String
  hostname : String
  port : String
  username : String
  password : String
deriving DecidableEq, Repr

/-- The options object passed to `new HttpsProxyAgent(...)`. -/
structure AgentOptions where
  protocol : String
  host : String
  port : String
  auth : Option String
  rejectUnauthorized : Bool
  timeout : Nat
  keepAlive : Bool
  keepAliveMsecs : Nat
deriving DecidableEq, Repr

/-- The agent options built from a parsed proxy URL: `auth` is
`user:pass` (both percent-decoded) when `proxyUrl.username &&
proxyUrl.password` is truthy — i.e. both strings nonempty — and
`undefined` otherwise. -/
def buildAgentOptions (u : ParsedUrl) : AgentOptions :=
  { protocol := u.protocol, host := u.hostname, port := u.port,
    auth :=
      if u.username ≠ "" ∧ u.password ≠ "" then
        some (percentDecode u.username ++ ":" ++ percentDecode u.password)
      else none,
    rejectUnauthorized := false, timeout := connectionTimeoutMs,
    keepAlive := true, keepAliveMsecs := 30000 }

/-- The proxy-agent stage of `connect()`: skipped when `this.proxy` is
falsy (null or the empty string); otherwise the URL-parse outcome
(`parseResult`, the platform `new URL(this.proxy)`) either throws — caught
and rethrown as `Invalid proxy URL: ...` — or yields the agent options. -/
def connectBuildAgent (s : ClientState) (parseResult : Except String ParsedUrl) :
    Except String (Option AgentOptions) :=
  match s.proxy with
  | none => .ok none
  | some p =>
    if p = "" then .ok none
    else
      match parseResult with
      | .error e => .error ("Invalid proxy URL: " ++ e)
      | .ok u => .ok (some (buildAgentOptions u))

/-! ## connect: the open/error/timeout race -/

/-- The first thing that settles the `connect()` promise: the `open`
event, the `error` event (with the transport error's message), or the
30-second `setTimeout` firing with neither having arrived. -/
inductive ConnectEvent where
  | openEvt
  | errorEvt (e : String)
  | timeoutFires
deriving DecidableEq, Repr

/-- How a `connect()` attempt fails: the timer path rejects with
`new Error('Connection timeout')` (the spec's TimeoutError); the `error`
event path rejects with the transport error itself (the spec's
ConnectionError). -/
inductive ConnectFailure where
  | timeout
  | wsError (e : String)
deriving DecidableEq, Repr

/-- Settlement of the `connect()` promise plus the actions the settling
handler performs first. -/
structure ConnectRaceResult where
  outcome : Except ConnectFailure Unit
  actions : List Act
deriving Repr

/-- `${this.proxy}` in a template literal: `null` prints as `"null"`. -/
def proxyDisplay : Option String → String
  | some p => p
  | none => "null"

/-- The race inside `connect()`'s promise: on `open`, clear the timer, log
and resolve; on `error`, clear the timer and reject with the error; when
the 30 s timer fires first, `this.ws.terminate()` (guarded by
`if (this.ws)`, hence `wsPresent`) and reject with `'Connection
timeout'`. -/
def connectRace (wsPresent : Bool) (ev : ConnectEvent) (proxy : Option String) :
    ConnectRaceResult :=
  match ev with
  | .openEvt =>
    { outcome := .ok (),
      actions := [.logInfo ("Connected via proxy: " ++ proxyDisplay proxy)] }
  | .errorEvt e => { outcome := .error (.wsError e), actions := [] }
  | .timeoutFires =>
    { outcome := .error .timeout,
      actions := if wsPresent then [.terminate] else [] }

/-- The state transition of a successful `connect()`: `this.ws = new
WebSocket(...)` followed by the `open` handler resolving once the socket
reaches `OPEN` at wall-clock time `tOpen`.  The handler only clears the
timer and logs: it reads no clock and writes no field besides `ws`, so
`tOpen` is not recorded anywhere. -/
def connectOnOpen (s : ClientState) (tOpen : Nat) : ClientState × List Act :=
  ({ s with ws := some { readyState := WebSocket.OPEN } },
   [.logInfo ("Connected via proxy: " ++ proxyDisplay s.proxy)])

/-! ## The supervisor loop (`start()`) -/

/-- One iteration of the `while (true)` body of `start()`.  The cycle body
(connect, authenticate, heartbeat arming, waiting for `close`) is
abstracted as a state transformer returning `.ok ()` when the cycle ends
by the `close` event and `.error e` when any of its awaits rejects.  Both
continuations run `cleanup()` and then sleep `this.reconnectDelay`; the
catch block first logs the error. -/
def startCycle (s : ClientState)
    (body : ClientState → ClientState × Except String Unit) :
    ClientState × List Act :=
  match body s with
  | (s', .ok _) =>
    let c := cleanup s'
    (c.1, c.2 ++ [.sleep reconnectDelayMs])
  | (s', .error e) =>
    let c := cleanup s'
    (c.1, .logError ("Connection error: " ++ e) :: (c.2 ++ [.sleep reconnectDelayMs]))

/-- The supervisor loop run for finitely many iterations, one abstract
body per iteration (the loop itself never exits; any finite prefix of
iterations is captured by a list of bodies). -/
def startLoop (s : ClientState)
    (bodies : List (ClientState → ClientState × Except String Unit)) :
    ClientState × List Act :=
  match bodies with
  | [] => (s, [])
  | b :: bs =>
    let step := startCycle s b
    let rest := startLoop step.1 bs
    (rest.1, step.2 ++ rest.2)

/-- Whether an action is a backoff sleep. -/
def Act.isSleep : Act → Bool
  | .sleep _ => true
  | _ => false

/-- The backoff sleeps of a trace. -/
def sleepsOf (acts : List Act) : List Act :=
  acts.filter Act.isSleep

/-! ## Theorems -/

/-- C4: on a heartbeat tick while the transport is open, if the elapsed
time since the last liveness signal exceeds 45 s, the tick logs a warning
and terminates the transport, sends nothing, and leaves the state —
including the liveness timestamp — unchanged. -/
theorem heartbeat_stale_terminates (s : ClientState) (env : TickEnv) (w : WS)
    (hws : s.ws = some w) (hopen : w.readyState = WebSocket.OPEN)
    (hstale : (env.now : Int) - (s.lastHeartbeat : Int) > 45000) :
    heartbeatTick s env =
      { state := s,
        actions := [.logWarn ("Heartbeat timeout, reconnecting..."), .terminate] } := by
  simp [heartbeatTick, hws, hopen, hstale]

/-- C4 witness: a concrete open socket with `lastHeartbeat = 0` ticking at
`now = 45001`. -/
theorem heartbeat_stale_terminates_witness :
    heartbeatTick
      { userId := "u", proxy := none, ws := some { readyState := 1 },
        browserId := "b", heartbeatInterval := none, lastHeartbeat := 0 }
      { now := 45001, freshId := "p",
        send1 := .completes none, send2 := .completes none } =
      { state := { userId := "u", proxy := none, ws := some { readyState := 1 },
                   browserId := "b", heartbeatInterval := none, lastHeartbeat := 0 },
        actions := [.logWarn ("Heartbeat timeout, reconnecting..."), .terminate] } :=
  heartbeat_stale_terminates _ _ { readyState := 1 } rfl rfl (by norm_num)

/-- C5: on a heartbeat tick while the transport is open and the elapsed
time does not exceed 45 s, the tick sends the ping frame (fresh random
id, `action = "PING"`, empty data object) and then the pong-ack frame
(`id = "F3X"`, `origin_action = "PONG"`), and the liveness timestamp is
set to the tick's clock reading exactly when both sends complete
successfully (otherwise the state is unchanged). -/
theorem heartbeat_fresh_sends (s : ClientState) (env : TickEnv) (w : WS)
    (hws : s.ws = some w) (hopen : w.readyState = WebSocket.OPEN)
    (hfresh : (env.now : Int) - (s.lastHeartbeat : Int) ≤ 45000) :
    (env.send1 = WriteBehavior.completes none →
     env.send2 = WriteBehavior.completes none →
      heartbeatTick s env =
        { state := { s with lastHeartbeat := env.now },
          actions := [.send (pingPayload env.freshId), .send pongAckPayload] })
    ∧ ((env.send1 ≠ WriteBehavior.completes none ∨
        env.send2 ≠ WriteBehavior.completes none) →
        (heartbeatTick s env).state = s)
    ∧ (pingPayload env.freshId).getField ("id") = some (.str env.freshId)
    ∧ (pingPayload env.freshId).getField ("action") = some (.str ("PING"))
    ∧ (pingPayload env.freshId).getField ("data") = some (.obj [])
    ∧ pongAckPayload.getField ("id") = some (.str ("F3X"))
    ∧ pongAckPayload.getField ("origin_action") = some (.str ("PONG")) := by
  have hnot : ¬ ((env.now : Int) - (s.lastHeartbeat : Int) > 45000) := not_lt.mpr hfresh
  refine ⟨?_, ?_, rfl, rfl, rfl, rfl, rfl⟩
  · intro h1 h2
    simp [heartbeatTick, sendMessage, hws, hopen, hnot, h1, h2]
  · intro hfail
    rcases hs1 : env.send1 with e1 | _
    · rcases e1 with _ | err1
      · rcases hs2 : env.send2 with e2 | _
        · rcases e2 with _ | err2
          · rcases hfail with h | h
            · exact absurd hs1 h
            · exact absurd hs2 h
          · simp [heartbeatTick, sendMessage, hws, hopen, hnot, hs1, hs2]
        · simp [heartbeatTick, sendMessage, hws, hopen, hnot, hs1, hs2]
      · simp [heartbeatTick, sendMessage, hws, hopen, hnot, hs1]
    · simp [heartbeatTick, sendMessage, hws, hopen, hnot, hs1]

/-- C5 witness: a concrete fresh tick with both sends succeeding. -/
theorem heartbeat_fresh_sends_witness :
    (WriteBehavior.completes none = WriteBehavior.completes none →
     WriteBehavior.completes none = WriteBehavior.completes none →
      heartbeatTick
        { userId := "u", proxy := none, ws := some { readyState := 1 },
          browserId := "b", heartbeatInterval := none, lastHeartbeat := 0 }
        { now := 30000, freshId := "p",
          send1 := .completes none, send2 := .completes none } =
        { state := { userId := "u", proxy := none, ws := some { readyState := 1 },
                     browserId := "b", heartbeatInterval := none,
                     lastHeartbeat := 30000 },
          actions := [.send (pingPayload ("p")), .send pongAckPayload] })
    ∧ ((WriteBehavior.completes none ≠ WriteBehavior.completes none ∨
        WriteBehavior.completes none ≠ WriteBehavior.completes none) →
        (heartbeatTick
          { userId := "u", proxy := none, ws := some { readyState := 1 },
            browserId := "b", heartbeatInterval := none, lastHeartbeat := 0 }
          { now := 30000, freshId := "p",
            send1 := .completes none, send2 := .completes none }).state =
          { userId := "u", proxy := none, ws := some { readyState := 1 },
            browserId := "b", heartbeatInterval := none, lastHeartbeat := 0 })
    ∧ (pingPayload ("p")).getField ("id") = some (.str ("p"))
    ∧ (pingPayload ("p")).getField ("action") = some (.str ("PING"))
    ∧ (pingPayload ("p")).getField ("data") = some (.obj [])
    ∧ pongAckPayload.getField ("id") = some (.str ("F3X"))
    ∧ pongAckPayload.getField ("origin_action") = some (.str ("PONG")) :=
  heartbeat_fresh_sends
    { userId := "u", proxy := none, ws := some { readyState := 1 },
      browserId := "b", heartbeatInterval := none, lastHeartbeat := 0 }
    { now := 30000, freshId := "p",
      send1 := .completes none, send2 := .completes none }
    { readyState := 1 } rfl rfl (by norm_num)

/-- C10: a heartbeat tick while the transport handle is absent or the
socket not open does nothing at all: state (including the liveness
timestamp) unchanged, no action, no termination, no send. -/
theorem heartbeat_noop_not_open (s : ClientState) (env : TickEnv)
    (h : ∀ w, s.ws = some w → w.readyState ≠ WebSocket.OPEN) :
    heartbeatTick s env = { state := s, actions := [] } := by
  cases hws : s.ws with
  | none => simp [heartbeatTick, hws]
  | some w => simp [heartbeatTick, hws, h w hws]

/-- C10 witness: a tick with no transport handle set. -/
theorem heartbeat_noop_not_open_witness :
    heartbeatTick
      { userId := "u", proxy := none, ws := none,
        browserId := "b", heartbeatInterval := none, lastHeartbeat := 0 }
      { now := 99999999, freshId := "p",
        send1 := .completes none, send2 := .completes none } =
      { state := { userId := "u", proxy := none, ws := none,
                   browserId := "b", heartbeatInterval := none, lastHeartbeat := 0 },
        actions := [] } :=
  heartbeat_noop_not_open _ _ (fun w hw => Option.noConfusion hw)

/-- C6: `sendMessage` with no transport handle, or a non-open one, rejects
at once with NotConnectedError and never arms the 10-second timer; with an
open transport whose write callback does not fire within the window it
rejects with TimeoutError (and the timer constant is 10000 ms). -/
theorem sendMessage_not_connected_fast (w : WS) (wb : WriteBehavior)
    (hnot : w.readyState ≠ WebSocket.OPEN) :
    sendMessage none wb = { result := .errNotConnected, timeoutArmed := false }
    ∧ sendMessage (some w) wb = { result := .errNotConnected, timeoutArmed := false }
    ∧ (∀ w2 : WS, w2.readyState = WebSocket.OPEN →
        sendMessage (some w2) WriteBehavior.hangs =
          { result := .errTimeout, timeoutArmed := true })
    ∧ sendTimeoutMs = 10000 :=
  ⟨rfl, by simp [sendMessage, hnot], fun w2 h2 => by simp [sendMessage, h2], rfl⟩

/-- C6 witness: a closing socket (`readyState = 2`). -/
theorem sendMessage_not_connected_fast_witness :
    sendMessage none WriteBehavior.hangs =
      { result := .errNotConnected, timeoutArmed := false }
    ∧ sendMessage (some { readyState := 2 }) WriteBehavior.hangs =
      { result := .errNotConnected, timeoutArmed := false }
    ∧ (∀ w2 : WS, w2.readyState = WebSocket.OPEN →
        sendMessage (some w2) WriteBehavior.hangs =
          { result := .errTimeout, timeoutArmed := true })
    ∧ sendTimeoutMs = 10000 :=
  sendMessage_not_connected_fast { readyState := 2 } WriteBehavior.hangs (by decide)

/-- C8: `cleanup()` is total and idempotent: after any call the heartbeat
timer handle and the transport handle are cleared; a second call changes
nothing and performs no action; a graceful close is issued exactly when a
transport handle exists and is currently open. -/
theorem cleanup_idempotent (s : ClientState) :
    (cleanup s).1.ws = none
    ∧ (cleanup s).1.heartbeatInterval = none
    ∧ cleanup ((cleanup s).1) = ((cleanup s).1, [])
    ∧ (Act.close ∈ (cleanup s).2 ↔
        ∃ w, s.ws = some w ∧ w.readyState = WebSocket.OPEN) := by
  obtain ⟨uid, px, ws, bid, hb, lhb⟩ := s
  refine ⟨?_, ?_, ?_, ?_⟩
  · cases ws <;> cases hb <;> rfl
  · cases ws <;> cases hb <;> rfl
  · cases ws <;> cases hb <;> rfl
  · cases ws with
    | none =>
      cases hb <;> simp [cleanup]
    | some w =>
      by_cases hw : w.readyState = WebSocket.OPEN <;>
        cases hb <;> simp [cleanup, hw]

/-! ### Supervisor-loop helper lemmas -/

/-- `cleanup` never sleeps. -/
theorem sleepsOf_cleanup (s : ClientState) : sleepsOf (cleanup s).2 = [] := by
  obtain ⟨uid, px, ws, bid, hb, lhb⟩ := s
  cases ws with
  | none => cases hb <;> rfl
  | some w =>
    by_cases hw : w.readyState = WebSocket.OPEN <;>
      cases hb <;> simp [cleanup, sleepsOf, Act.isSleep, hw]

/-- Each supervisor cycle contributes exactly one backoff sleep, of the
fixed reconnect delay. -/
theorem sleepsOf_startCycle (s : ClientState)
    (body : ClientState → ClientState × Except String Unit) :
    sleepsOf (startCycle s body).2 = [Act.sleep reconnectDelayMs] := by
  unfold startCycle
  rcases hb : body s with ⟨s', r⟩
  cases r <;>
    simp [sleepsOf, List.filter_append, Act.isSleep,
          sleepsOf_cleanup s' ▸ (rfl : sleepsOf (cleanup s').2 = sleepsOf (cleanup s').2)] <;>
    simpa [sleepsOf] using sleepsOf_cleanup s'

/-- The backoff sleeps of any finite run of the supervisor loop: one per
cycle, each of the fixed delay. -/
theorem sleepsOf_startLoop (bodies : List (ClientState → ClientState × Except String Unit))
    (s : ClientState) :
    sleepsOf (startLoop s bodies).2 =
      List.replicate bodies.length (Act.sleep reconnectDelayMs) := by
  induction bodies generalizing s with
  | nil => rfl
  | cons b bs ih =>
    simp only [startLoop, List.length_cons, List.replicate_succ, sleepsOf,
      List.filter_append]
    have h1 := sleepsOf_startCycle s b
    have h2 := ih (startCycle s b).1
    simp only [sleepsOf] at h1 h2
    rw [h1, h2]
    rfl

/-- C3: the supervisor loop of `start()` is a total function of its cycle
outcomes — no error escapes it; a cycle ending in an error contributes
exactly a log line, the `cleanup()` actions and the fixed backoff sleep
(a cycle ending in a graceful close the same without the log line); and
over any finite number of cycles the backoff sleeps are exactly one
constant 10-second sleep per cycle, with no growth and no retry
ceiling. -/
theorem start_supervisor_policy :
    (∀ (s : ClientState)
       (bodies : List (ClientState → ClientState × Except String Unit)),
      sleepsOf (startLoop s bodies).2 =
        List.replicate bodies.length (Act.sleep reconnectDelayMs))
    ∧ reconnectDelayMs = 10000
    ∧ (∀ (s s' : ClientState) (e : String),
        startCycle s (fun _ => (s', Except.error e)) =
          ((cleanup s').1,
           Act.logError ("Connection error: " ++ e) ::
             ((cleanup s').2 ++ [Act.sleep reconnectDelayMs])))
    ∧ (∀ (s s' : ClientState),
        startCycle s (fun _ => (s', Except.ok ())) =
          ((cleanup s').1, (cleanup s').2 ++ [Act.sleep reconnectDelayMs])) :=
  ⟨fun s bodies => sleepsOf_startLoop bodies s, rfl,
   fun _ _ _ => rfl, fun _ _ => rfl⟩

/-- C7: when the 30-second connect timer fires with no open event, the
`connect()` attempt rejects with the timeout error and the half-open
transport is forcibly terminated (a `terminate`, never a graceful
`close`) before the rejection; a transport error before opening rejects
with the transport's own connection error. -/
theorem connect_timeout_policy :
    (∀ p : Option String,
      connectRace true ConnectEvent.timeoutFires p =
        { outcome := .error .timeout, actions := [Act.terminate] })
    ∧ (∀ (p : Option String) (e : String),
      connectRace true (ConnectEvent.errorEvt e) p =
        { outcome := .error (.wsError e), actions := [] })
    ∧ connectionTimeoutMs = 30000 :=
  ⟨fun _ => rfl, fun _ _ => rfl, rfl⟩

/-- C1 counterexample: a client constructed at time 0 whose `connect()`
open event fires at time 5 — after `connect()` resolves, the liveness
timestamp still holds the construction-time value 0, strictly earlier
than the moment the open event fired. -/
theorem connect_open_timestamp_cex :
    (connectOnOpen (GrassClient.init ("u") none ("b") 0) 5).1.lastHeartbeat = 0
    ∧ ¬ (5 ≤ (connectOnOpen (GrassClient.init ("u") none ("b") 0) 5).1.lastHeartbeat) :=
  ⟨rfl, by decide⟩

/-- C1 (amended): `connect()` does not record the moment of opening: its
open handler leaves the liveness timestamp exactly as it was, and the
timestamp's initial value is the construction-time clock reading (it is
later refreshed only by protocol pongs and successful heartbeat ticks),
so after `connect()` resolves it can be earlier than the open moment. -/
theorem connect_open_preserves_timestamp :
    (∀ (u : String) (p : Option String) (b : String) (n : Nat),
      (GrassClient.init u p b n).lastHeartbeat = n)
    ∧ (∀ (s : ClientState) (t : Nat),
      (connectOnOpen s t).1.lastHeartbeat = s.lastHeartbeat) :=
  ⟨fun _ _ _ _ => rfl, fun _ _ => rfl⟩

/-- C2 counterexample: a proxy URL carrying a username but no password —
`new URL` yields `username = "user"`, `password = ""` — does not make
`connect()` fail: the agent is built successfully, merely with no `auth`
credential. -/
theorem proxy_single_credential_cex :
    connectBuildAgent
        (GrassClient.init ("u") (some ("http://user@host:8080")) ("b") 0)
        (Except.ok { protocol := "http:", hostname := "host", port := "8080",
                     username := "user", password := "" }) =
      Except.ok (some (buildAgentOptions
        { protocol := "http:", hostname := "host", port := "8080",
          username := "user", password := "" }))
    ∧ (buildAgentOptions
        { protocol := "http:", hostname := "host", port := "8080",
          username := "user", password := "" }).auth = none := by
  constructor
  · simp [connectBuildAgent, GrassClient.init]
  · simp [buildAgentOptions]

/-- C2 (amended): for a configured, nonempty proxy URL whose parse yields
exactly one of username/password (the other empty), `connect()` does not
raise: the agent options are built with the `auth` field absent, so
credentials are attached only when both are present. -/
theorem proxy_single_credential_no_failure (s : ClientState) (p : String)
    (u : ParsedUrl) (hp : s.proxy = some p) (hpne : p ≠ "")
    (hcred : u.username = "" ∨ u.password = "") :
    connectBuildAgent s (Except.ok u) = Except.ok (some (buildAgentOptions u))
    ∧ (buildAgentOptions u).auth = none := by
  constructor
  · simp [connectBuildAgent, hp, hpne]
  · rcases hcred with h | h <;> simp [buildAgentOptions, h]

/-- C2 witness: the concrete username-only proxy URL. -/
theorem proxy_single_credential_no_failure_witness :
    connectBuildAgent
        (GrassClient.init ("u") (some ("http://user@host:8080")) ("b") 1)
        (Except.ok { protocol := "http:", hostname := "host", port := "8080",
                     username := "user", password := "" }) =
      Except.ok (some (buildAgentOptions
        { protocol := "http:", hostname := "host", port := "8080",
          username := "user", password := "" }))
    ∧ (buildAgentOptions
        { protocol := "http:", hostname := "host", port := "8080",
          username := "user", password := "" }).auth = none :=
  proxy_single_credential_no_failure
    (GrassClient.init ("u") (some ("http://user@host:8080")) ("b") 1)
    ("http://user@host:8080")
    { protocol := "http:", hostname := "host", port := "8080",
      username := "user", password := "" }
    rfl (by decide) (Or.inr rfl)

/-- C9: for every inbound auth challenge carrying an `id` field, the
outbound auth payload echoes that `id`, has `origin_action = "AUTH"`, and
its `result` object carries the configured user id, the session's
browser id, `device_type = "desktop"`, and the unix-seconds timestamp
`⌊nowMs / 1000⌋`. -/
theorem authenticate_echoes_id (s : ClientState) (msg : Json) (idv : Json)
    (nowMs : Nat) (hid : msg.getField ("id") = some idv) :
    (authenticateOutbound s msg nowMs).getField ("id") = some idv
    ∧ (authenticateOutbound s msg nowMs).getField ("origin_action") =
        some (.str ("AUTH"))
    ∧ ∃ r, (authenticateOutbound s msg nowMs).getField ("result") = some r
        ∧ r.getField ("user_id") = some (.str s.userId)
        ∧ r.getField ("browser_id") = some (.str s.browserId)
        ∧ r.getField ("device_type") = some (.str ("desktop"))
        ∧ r.getField ("timestamp") = some (.num (nowMs / 1000)) := by
  unfold authenticateOutbound
  rw [hid]
  exact ⟨rfl, rfl, _, rfl, rfl, rfl, rfl, rfl⟩

/-- C9 witness: the challenge `{"id":"abc123"}` against a concrete
client. -/
theorem authenticate_echoes_id_witness :
    (authenticateOutbound (GrassClient.init ("user123") none ("bid7") 0)
        (Json.obj [("id", .str ("abc123"))]) 1699999999123).getField ("id") =
      some (.str ("abc123"))
    ∧ (authenticateOutbound (GrassClient.init ("user123") none ("bid7") 0)
        (Json.obj [("id", .str ("abc123"))]) 1699999999123).getField
        ("origin_action") = some (.str ("AUTH"))
    ∧ ∃ r, (authenticateOutbound (GrassClient.init ("user123") none ("bid7") 0)
        (Json.obj [("id", .str ("abc123"))]) 1699999999123).getField ("result") =
          some r
        ∧ r.getField ("user_id") = some (.str ("user123"))
        ∧ r.getField ("browser_id") = some (.str ("bid7"))
        ∧ r.getField ("device_type") = some (.str ("desktop"))
        ∧ r.getField ("timestamp") = some (.num (1699999999123 / 1000)) :=
  authenticate_echoes_id (GrassClient.init ("user123") none ("bid7") 0)
    (Json.obj [("id", .str ("abc123"))]) (.str ("abc123")) 1699999999123 rfl
